import Mathlib

/-!
Shallow embedding of the authentication/session subsystem of the
CND_Project repository.

Backend: src/backend/server.js (Express handlers over a user store).
Frontend: src/frontend/src/context/AuthContext.jsx (client session store).

External collaborators (per the specification) are modelled abstractly but
executably: bcrypt hashing, JWT signing/verification, and the Mongo
persistence layer (a list of user records plus a flag that models an
unexpected persistence failure: when the flag is false every awaited
database call rejects, landing in the handler's catch block).
-/

namespace CND

/-! ## Data model: User records (src/backend/models/User, as used by server.js) -/

structure User where
  _id : Nat
  fullName : Option String
  doctorId : Option String
  email : String
  passwordHash : String
  hospitalName : Option String
  area : Option String
  profilePicture : Option String
deriving Repr, DecidableEq

/-- The persistence layer. `ok = false` models an unexpected persistence
failure: every awaited database call rejects (throws). `nextId` models
ObjectId generation for `new User(...)`. -/
structure Db where
  users : List User
  nextId : Nat
  ok : Bool
deriving Repr, DecidableEq

/-- Exceptions thrown inside a handler's try block. -/
inductive Exn where
  | dbError
  | jwtInvalid
  | jwtExpired
deriving Repr, DecidableEq

/-- Pure part of `User.findOne(\x7b email \x7d)`: exact-match lookup. -/
def findUserByEmail (users : List User) (email : String) : Option User :=
  users.find? (fun u => u.email = email)

/-- `await User.findOne(\x7b email \x7d)`: rejects when the database is down. -/
def findOneByEmail (db : Db) (email : String) : Except Exn (Option User) :=
  if db.ok then .ok (findUserByEmail db.users email) else .error .dbError

/-- Pure part of `User.findById(id)`. -/
def findUserById (users : List User) (id : Nat) : Option User :=
  users.find? (fun u => u._id = id)

/-- `await User.findById(id)`: rejects when the database is down. -/
def findById (db : Db) (id : Nat) : Except Exn (Option User) :=
  if db.ok then .ok (findUserById db.users id) else .error .dbError

/-- `await user.save()`: appends the new record. -/
def saveUser (db : Db) (u : User) : Except Exn Db :=
  if db.ok then .ok { db with users := db.users ++ [u], nextId := db.nextId + 1 }
  else .error .dbError

/-! ## Cryptographic primitives (external collaborators, modelled executably) -/

/-- Model of `bcrypt.hash(password, saltRounds)`: a salted one-way hash,
modelled as an injective tagged encoding. -/
def bcryptHash (password : String) (saltRounds : Nat) : String :=
  "bcrypt" ++ toString saltRounds ++ "$" ++ password

/-- Model of `bcrypt.compare(password, hash)`: verifies a password against a
stored hash produced by `bcryptHash` at work factor 10. -/
def bcryptCompare (password hash : String) : Bool :=
  hash == bcryptHash password 10

structure JwtPayload where
  id : Nat
  email : String
deriving Repr, DecidableEq

/-- A JWT as seen by the server: either well-formed and signed with some
secret and expiry timestamp, or malformed garbage. -/
inductive Token where
  | signed (payload : JwtPayload) (secret : String) (expiresAt : Nat)
  | malformed (raw : String)
deriving Repr, DecidableEq

/-- Model of `jwt.sign(payload, secret, \x7b expiresIn: "7d" \x7d)`; the expiry
timestamp is issuance time plus seven days. -/
def jwtSign (payload : JwtPayload) (secret : String) (expiresAt : Nat) : Token :=
  .signed payload secret expiresAt

/-- Model of `jwt.verify(token, secret)` at current time `now` (seconds):
throws on a malformed token or wrong signature, throws TokenExpiredError
once `now` reaches the expiry timestamp, otherwise returns the payload. -/
def jwtVerify (t : Token) (secret : String) (now : Nat) : Except Exn JwtPayload :=
  match t with
  | .malformed _ => .error .jwtInvalid
  | .signed payload s expiresAt =>
    if s ≠ secret then .error .jwtInvalid
    else if expiresAt ≤ now then .error .jwtExpired
    else .ok payload

/-! ## Server configuration and mode flag -/

/-- Process environment relevant to the session manager: `JWT_SECRET`
(an environment variable is absent or a string). -/
structure Config where
  jwtSecret : Option String
deriving Repr, DecidableEq

/-- JavaScript truthiness of an optional environment string: `undefined` and
the empty string are falsy. -/
def envTruthy : Option String → Bool
  | none => false
  | some s => s ≠ ""

/-- `const USE_JWT = !!JWT_SECRET;` — fixed once at process start. -/
def USE_JWT (cfg : Config) : Bool :=
  envTruthy cfg.jwtSecret

/-- The secret string used for signing and verification when in token mode. -/
def jwtSecretStr (cfg : Config) : String :=
  cfg.jwtSecret.getD ""

/-! ## HTTP response model -/

/-- A JSON value as produced by the handlers: string, number, boolean, or a
flat sub-object of string-valued fields (the serialized user document). -/
inductive JVal where
  | s (v : String)
  | n (v : Nat)
  | b (v : Bool)
  | o (fields : List (String × String))
deriving Repr, DecidableEq

/-- A JSON response body: an object, as a list of key/value pairs. -/
abbrev Body := List (String × JVal)

/-- Value of a cookie being set: the JWT, or a plain string. -/
inductive CookieVal where
  | tok (t : Token)
  | str (s : String)
deriving Repr, DecidableEq

structure CookieOpts where
  httpOnly : Bool
  secure : Bool
  sameSite : String
  maxAge : Option Nat
deriving Repr, DecidableEq

structure SetCookie where
  name : String
  value : CookieVal
  opts : CookieOpts
deriving Repr, DecidableEq

structure ClearCookie where
  name : String
  opts : CookieOpts
deriving Repr, DecidableEq

/-- An HTTP response: status, JSON body, cookies set, cookies cleared. -/
structure Response where
  status : Nat
  body : Body
  cookies : List SetCookie
  cleared : List ClearCookie
deriving Repr, DecidableEq

/-- `res.status(st).json(\x7b message \x7d)` with no cookie side effects. -/
def mkMsg (st : Nat) (message : String) : Response :=
  { status := st, body := [("message", .s message)], cookies := [], cleared := [] }

/-- `res.status(st).json(\x7b error \x7d)` with no cookie side effects. -/
def mkErr (st : Nat) (error : String) : Response :=
  { status := st, body := [("error", .s error)], cookies := [], cleared := [] }

/-! ## Serialized user documents and field selection -/

/-- One optional document field: absent in the serialized document when the
underlying record field is unset, mirroring undefined fields in Mongo docs. -/
def optField (k : String) (v : Option String) : List (String × String) :=
  match v with
  | none => []
  | some s => [(k, s)]

/-- The full serialized user document, password hash included. -/
def userDocRaw (u : User) : List (String × String) :=
  [("_id", toString u._id)]
    ++ optField "fullName" u.fullName
    ++ optField "doctorId" u.doctorId
    ++ [("email", u.email), ("passwordHash", u.passwordHash)]
    ++ optField "hospitalName" u.hospitalName
    ++ optField "area" u.area
    ++ optField "profilePicture" u.profilePicture

/-- `.select("-passwordHash")` projection: drop the excluded key. -/
def selectMinus (doc : List (String × String)) (excluded : String) :
    List (String × String) :=
  doc.filter (fun kv => kv.1 != excluded)

/-- Read a document field with an empty-string default, as in
`user.fullName || ""`. -/
def lookupD (doc : List (String × String)) (k : String) : String :=
  match doc.find? (fun kv => kv.1 == k) with
  | some kv => kv.2
  | none => ""

/-! ## Requests -/

/-- JavaScript `a || b` over optional strings followed by a falsiness check:
the empty string is falsy and falls through. -/
def strVal : Option String → Option String
  | none => none
  | some s => if s = "" then none else some s

def strOr (a b : Option String) : Option String :=
  match strVal a with
  | some v => some v
  | none => strVal b

/-- `req.cookies.token || req.headers.authorization?.split(" ")[1]`. -/
def tokOr (a b : Option Token) : Option Token :=
  match a with
  | some t => some t
  | none => b

/-- A request to an identity-gated endpoint: the token cookie, the bearer
token extracted from the authorization header, the plain email cookie, and
the x-user-email header. -/
structure AuthedRequest where
  cookieToken : Option Token
  authHeaderToken : Option Token
  cookieUserEmail : Option String
  headerXUserEmail : Option String
deriving Repr, DecidableEq

def emptyAuthedRequest : AuthedRequest :=
  { cookieToken := none, authHeaderToken := none,
    cookieUserEmail := none, headerXUserEmail := none }

/-- Body of POST /api/auth/register: destructured request fields, each
possibly absent. -/
structure RegisterBody where
  fullName : Option String
  doctorId : Option String
  email : Option String
  password : Option String
  hospitalName : Option String
  area : Option String
deriving Repr, DecidableEq

/-- JavaScript `!field` for an optional string body field. -/
def strFalsy : Option String → Bool
  | none => true
  | some s => s == ""

/-! ## Session issuance (shared tail of register and login) -/

def sevenDaysMs : Nat := 7 * 24 * 60 * 60 * 1000

def sevenDaysSec : Nat := 7 * 24 * 60 * 60

def tokenCookieOpts : CookieOpts :=
  { httpOnly := true, secure := true, sameSite := "none", maxAge := some sevenDaysMs }

def emailCookieOpts : CookieOpts :=
  { httpOnly := false, secure := false, sameSite := "lax", maxAge := none }

/-- The success body shared by register and login:
`\x7b user: \x7b id, email, fullName \x7d \x7d` (fullName omitted when unset). -/
def userSummaryBody (u : User) : Body :=
  [("user", .o ([("id", toString u._id), ("email", u.email)]
      ++ optField "fullName" u.fullName))]

/-- The mode branch at the end of register and login: sign and set the
7-day token cookie in token mode, or set the plain email cookie in cookie
mode, then return the user summary. -/
def sessionResponse (cfg : Config) (now : Nat) (u : User) : Response :=
  if USE_JWT cfg then
    { status := 200, body := userSummaryBody u,
      cookies := [{ name := "token",
                    value := .tok (jwtSign { id := u._id, email := u.email }
                      (jwtSecretStr cfg) (now + sevenDaysSec)),
                    opts := tokenCookieOpts }],
      cleared := [] }
  else
    { status := 200, body := userSummaryBody u,
      cookies := [{ name := "user_email", value := .str u.email,
                    opts := emailCookieOpts }],
      cleared := [] }

/-! ## POST /api/auth/register -/

/-- The try block of the register handler. -/
def registerTry (cfg : Config) (db : Db) (now : Nat) (body : RegisterBody) :
    Except Exn (Response × Db) :=
  if strFalsy body.email || strFalsy body.password then
    .ok (mkMsg 400 "Email and password are required", db)
  else
    match findOneByEmail db (body.email.getD "") with
    | .error e => .error e
    | .ok (some _) => .ok (mkMsg 409 "User already exists", db)
    | .ok none =>
      let hashed := bcryptHash (body.password.getD "") 10
      let u : User :=
        { _id := db.nextId, fullName := body.fullName, doctorId := body.doctorId,
          email := body.email.getD "", passwordHash := hashed,
          hospitalName := body.hospitalName, area := body.area,
          profilePicture := none }
      match saveUser db u with
      | .error e => .error e
      | .ok db2 => .ok (sessionResponse cfg now u, db2)

/-- The register handler, catch block included: any thrown error becomes a
500 Server error, and the database is left as it was. -/
def registerHandler (cfg : Config) (db : Db) (now : Nat) (body : RegisterBody) :
    Response × Db :=
  match registerTry cfg db now body with
  | .ok r => r
  | .error _ => (mkMsg 500 "Server error", db)

/-! ## POST /api/auth/login -/

/-- The try block of the login handler. -/
def loginTry (cfg : Config) (db : Db) (now : Nat) (email password : String) :
    Except Exn Response :=
  match findOneByEmail db email with
  | .error e => .error e
  | .ok none => .ok (mkMsg 401 "Invalid credentials")
  | .ok (some u) =>
    if bcryptCompare password u.passwordHash then .ok (sessionResponse cfg now u)
    else .ok (mkMsg 401 "Invalid credentials")

/-- The login handler, catch block included. -/
def loginHandler (cfg : Config) (db : Db) (now : Nat) (email password : String) :
    Response :=
  match loginTry cfg db now email password with
  | .ok r => r
  | .error _ => mkMsg 500 "Server error"

/-! ## Identity resolution (shared body of /api/auth/me and /api/profile) -/

inductive Resolved where
  | noCredential
  | found (doc : List (String × String))
  | missing
deriving Repr, DecidableEq

/-- The identity-resolution block duplicated inside GET /api/auth/me and
GET /api/profile: in token mode read the token from the cookie or the
authorization header and verify it; in cookie mode read the email from the
cookie or the x-user-email header; then look the user up with the
passwordHash field deselected. -/
def resolveUser (cfg : Config) (db : Db) (now : Nat) (req : AuthedRequest) :
    Except Exn Resolved :=
  if USE_JWT cfg then
    match tokOr req.cookieToken req.authHeaderToken with
    | none => .ok .noCredential
    | some token =>
      match jwtVerify token (jwtSecretStr cfg) now with
      | .error e => .error e
      | .ok decoded =>
        match findById db decoded.id with
        | .error e => .error e
        | .ok none => .ok .missing
        | .ok (some u) => .ok (.found (selectMinus (userDocRaw u) "passwordHash"))
  else
    match strOr req.cookieUserEmail req.headerXUserEmail with
    | none => .ok .noCredential
    | some email =>
      match findOneByEmail db email with
      | .error e => .error e
      | .ok none => .ok .missing
      | .ok (some u) => .ok (.found (selectMinus (userDocRaw u) "passwordHash"))

/-- GET /api/auth/me: missing credential yields 401 Not authenticated, a
missing user yields 404, success returns the selected document; the catch
block turns every thrown error into 401 Invalid or expired token. -/
def meHandler (cfg : Config) (db : Db) (now : Nat) (req : AuthedRequest) :
    Response :=
  match resolveUser cfg db now req with
  | .error _ => mkMsg 401 "Invalid or expired token"
  | .ok .noCredential => mkMsg 401 "Not authenticated"
  | .ok .missing => mkMsg 404 "User not found"
  | .ok (.found doc) =>
    { status := 200, body := [("user", .o doc)], cookies := [], cleared := [] }

/-- GET /api/profile: same resolution, but success flattens the document
with empty-string defaults, and the catch block turns every thrown error
into a 500 with an error body. -/
def profileHandler (cfg : Config) (db : Db) (now : Nat) (req : AuthedRequest) :
    Response :=
  match resolveUser cfg db now req with
  | .error _ => mkErr 500 "Failed to fetch profile"
  | .ok .noCredential => mkMsg 401 "Not authenticated"
  | .ok .missing => mkMsg 404 "User not found"
  | .ok (.found doc) =>
    { status := 200,
      body := [("full_name", .s (lookupD doc "fullName")),
               ("doctor_id", .s (lookupD doc "doctorId")),
               ("email", .s (lookupD doc "email")),
               ("hospital_name", .s (lookupD doc "hospitalName")),
               ("area", .s (lookupD doc "area")),
               ("profile_picture", .s (lookupD doc "profilePicture"))],
      cookies := [], cleared := [] }

/-! ## POST /api/auth/logout -/

/-- POST /api/auth/logout: unconditionally clears both cookies and reports
success; nothing in its try block can throw. -/
def logoutHandler : Response :=
  { status := 200, body := [("ok", .b true)], cookies := [],
    cleared :=
      [{ name := "token",
         opts := { httpOnly := false, secure := true, sameSite := "none",
                   maxAge := none } },
       { name := "user_email",
         opts := { httpOnly := false, secure := false, sameSite := "",
                   maxAge := none } }] }

/-! ## Client session store: src/frontend/src/context/AuthContext.jsx -/

/-- The user object as the client stores it: the parsed JSON object. -/
abbrev UserJson := List (String × String)

/-- The client identity state held by the AuthProvider. -/
structure ClientState where
  user : Option UserJson
  loading : Bool
  isAuthenticated : Bool
deriving Repr, DecidableEq

/-- `useState(null)`, `useState(true)`, `useState(false)`. -/
def initialClientState : ClientState :=
  { user := none, loading := true, isAuthenticated := false }

/-- How a fetch of the identity endpoint settles, as the client observes it:
a response with a status and the parsed `data.user` field (absent when
missing or not truthy), or a rejected promise (network failure; a JSON
parse failure follows the same catch path). -/
inductive FetchOutcome where
  | response (status : Nat) (user : Option UserJson)
  | networkError
deriving Repr, DecidableEq

/-- `response.ok`: status in the 200..299 range. -/
def respOk (status : Nat) : Bool :=
  200 ≤ status && status < 300

/-- `checkAuthStatus`: on an ok response with a user payload, become
authenticated; on an ok response without one, or a 401/403, clear the
identity; any other status leaves user and isAuthenticated untouched; the
catch path clears the identity; the finally block always clears loading. -/
def checkAuthStatus (s : ClientState) (o : FetchOutcome) : ClientState :=
  let s1 :=
    match o with
    | .response status user? =>
      if respOk status then
        match user? with
        | some u => { s with user := some u, isAuthenticated := true }
        | none => { s with user := none, isAuthenticated := false }
      else if status = 401 || status = 403 then
        { s with user := none, isAuthenticated := false }
      else s
    | .networkError => { s with user := none, isAuthenticated := false }
  { s1 with loading := false }

/-- How the client logout fetch settles; its payload is never inspected. -/
inductive LogoutOutcome where
  | response (status : Nat)
  | networkError
deriving Repr, DecidableEq

/-- Observable effects of the client `logout` call. -/
structure LogoutResult where
  state : ClientState
  navigatedTo : Option String
  toasts : List (String × String)
  consoleErrored : Bool
deriving Repr, DecidableEq

/-- `logout`: the try block awaits the server call, the catch block only
logs a network failure, and the finally block unconditionally clears the
identity, navigates to the login view, and emits a toast. -/
def logoutClient (s : ClientState) (o : LogoutOutcome) : LogoutResult :=
  let logged :=
    match o with
    | .response _ => false
    | .networkError => true
  { state := { s with user := none, isAuthenticated := false },
    navigatedTo := some "/login",
    toasts := [("Logged out", "You have been successfully logged out")],
    consoleErrored := logged }

/-- The context value the AuthProvider publishes (operation closures are
modelled by the standalone functions above; the data fields are here). -/
structure AuthContextValue where
  user : Option UserJson
  loading : Bool
  isAuthenticated : Bool
  apiBase : String
deriving Repr, DecidableEq

/-- `useAuth`: throws when the ambient context value is absent, otherwise
returns it. -/
def useAuth (context : Option AuthContextValue) : Except String AuthContextValue :=
  match context with
  | none => .error "useAuth must be used within an AuthProvider"
  | some v => .ok v

/-- Bridge from a server response to the client fetch outcome: the parsed
body's user field, an object when present. -/
def bodyUserField (b : Body) : Option UserJson :=
  match b.find? (fun kv => kv.1 == "user") with
  | some (_, .o fields) => some fields
  | _ => none

def outcomeOfResponse (r : Response) : FetchOutcome :=
  .response r.status (bodyUserField r.body)

/-! ## Key-absence helpers -/

/-- Whether a JSON value contains the key `k` (only sub-objects can). -/
def jvalHasKey (v : JVal) (k : String) : Bool :=
  match v with
  | .o fields => fields.any (fun kv => kv.1 == k)
  | _ => false

/-- Whether a response body mentions the key `k` at top level or inside a
sub-object. -/
def bodyHasKey (b : Body) (k : String) : Bool :=
  b.any (fun kv => kv.1 == k || jvalHasKey kv.2 k)

/-- Deselecting a key really removes it from the document. -/
theorem selectMinus_no_key (doc : List (String × String)) (k : String) :
    (selectMinus doc k).any (fun kv => kv.1 == k) = false := by
  induction doc with
  | nil => rfl
  | cons hd tl ih =>
    by_cases h : hd.1 = k <;> simp_all [selectMinus, List.filter_cons]

/-- Any document produced by `resolveUser` is a passwordHash-deselected
projection of some stored user. -/
theorem resolveUser_found_shape (cfg : Config) (db : Db) (now : Nat)
    (req : AuthedRequest) (doc : List (String × String))
    (h : resolveUser cfg db now req = .ok (.found doc)) :
    ∃ u, doc = selectMinus (userDocRaw u) "passwordHash" := by
  unfold resolveUser at h
  repeat' split at h
  all_goals cases h
  all_goals exact ⟨_, rfl⟩

/-! ## Concrete fixtures used by witnesses and counterexamples -/

def cfgToken : Config := ⟨some "secret"⟩

def cfgCookie : Config := ⟨none⟩

def userA : User :=
  { _id := 1, fullName := some "Dr A", doctorId := none, email := "a@x.com",
    passwordHash := bcryptHash "p1" 10, hospitalName := none, area := none,
    profilePicture := none }

def dbA : Db := ⟨[userA], 2, true⟩

def dbDown : Db := ⟨[userA], 2, false⟩

def regBodyA : RegisterBody :=
  ⟨some "Dr B", none, some "a@x.com", some "p2", none, none⟩

def reqBadToken : AuthedRequest :=
  { emptyAuthedRequest with cookieToken := some (.malformed "garbage") }

def emailOnlyReq (e : String) : AuthedRequest :=
  { cookieToken := none, authHeaderToken := none,
    cookieUserEmail := some e, headerXUserEmail := none }

def tokenOnlyReq (t : Token) : AuthedRequest :=
  { cookieToken := some t, authHeaderToken := none,
    cookieUserEmail := none, headerXUserEmail := none }

/-! ## Claims -/

/-- C2: a login that fails because no user matches the email and a login
that fails because the password does not verify produce identical
responses: 401 with the generic message Invalid credentials. -/
theorem login_failures_indistinguishable
    (cfg : Config) (db : Db) (now : Nat) (email1 pw1 email2 pw2 : String)
    (u : User)
    (hok : db.ok = true)
    (h1 : findUserByEmail db.users email1 = none)
    (h2 : findUserByEmail db.users email2 = some u)
    (h3 : bcryptCompare pw2 u.passwordHash = false) :
    loginHandler cfg db now email1 pw1 = loginHandler cfg db now email2 pw2
      ∧ (loginHandler cfg db now email1 pw1).status = 401
      ∧ (loginHandler cfg db now email1 pw1).body
          = [("message", .s "Invalid credentials")] := by
  simp [loginHandler, loginTry, findOneByEmail, hok, h1, h2, h3, mkMsg]

theorem login_failures_indistinguishable_witness :
    loginHandler cfgCookie dbA 0 "b@x.com" "p1"
        = loginHandler cfgCookie dbA 0 "a@x.com" "wrong"
      ∧ (loginHandler cfgCookie dbA 0 "b@x.com" "p1").status = 401
      ∧ (loginHandler cfgCookie dbA 0 "b@x.com" "p1").body
          = [("message", .s "Invalid credentials")] :=
  login_failures_indistinguishable cfgCookie dbA 0 "b@x.com" "p1" "a@x.com" "wrong"
    userA (by decide) (by decide) (by decide) (by decide)

/-- C3: registering with an email that exactly matches a persisted user
yields 409 User already exists, leaves the user store unchanged, and sets
no session cookie. -/
theorem register_duplicate_conflict
    (cfg : Config) (db : Db) (now : Nat) (body : RegisterBody) (u : User)
    (hok : db.ok = true)
    (he : strFalsy body.email = false)
    (hp : strFalsy body.password = false)
    (hdup : findUserByEmail db.users (body.email.getD "") = some u) :
    registerHandler cfg db now body =
      ({ status := 409, body := [("message", .s "User already exists")],
         cookies := [], cleared := [] }, db) := by
  simp [registerHandler, registerTry, findOneByEmail, hok, he, hp, hdup, mkMsg]

theorem register_duplicate_conflict_witness :
    registerHandler cfgToken dbA 0 regBodyA =
      ({ status := 409, body := [("message", .s "User already exists")],
         cookies := [], cleared := [] }, dbA) :=
  register_duplicate_conflict cfgToken dbA 0 regBodyA userA
    (by decide) (by decide) (by decide) (by decide)

/-- Combined: any document handed to a success response by `resolveUser`
is free of the passwordHash key. -/
theorem resolveUser_found_no_passwordHash (cfg : Config) (db : Db) (now : Nat)
    (req : AuthedRequest) (doc : List (String × String))
    (h : resolveUser cfg db now req = .ok (.found doc)) :
    doc.any (fun kv => kv.1 == "passwordHash") = false := by
  obtain ⟨u, hu⟩ := resolveUser_found_shape cfg db now req doc h
  rw [hu]
  exact selectMinus_no_key (userDocRaw u) "passwordHash"

/-- C4: no response of GET /api/auth/me or GET /api/profile — in either
mode, success or failure — ever mentions the passwordHash field, at top
level or inside the returned user object. -/
theorem identity_responses_never_expose_passwordHash
    (cfg : Config) (db : Db) (now : Nat) (req : AuthedRequest) :
    bodyHasKey (meHandler cfg db now req).body "passwordHash" = false
      ∧ bodyHasKey (profileHandler cfg db now req).body "passwordHash" = false := by
  constructor
  · cases hres : resolveUser cfg db now req with
    | error e => simp [meHandler, hres, mkMsg, bodyHasKey, jvalHasKey]
    | ok r =>
      cases r with
      | noCredential => simp [meHandler, hres, mkMsg, bodyHasKey, jvalHasKey]
      | missing => simp [meHandler, hres, mkMsg, bodyHasKey, jvalHasKey]
      | found doc =>
        have hdoc := resolveUser_found_no_passwordHash cfg db now req doc hres
        simp [meHandler, hres, bodyHasKey, jvalHasKey, hdoc]
  · cases hres : resolveUser cfg db now req with
    | error e => simp [profileHandler, hres, mkErr, bodyHasKey, jvalHasKey]
    | ok r =>
      cases r with
      | noCredential => simp [profileHandler, hres, mkMsg, bodyHasKey, jvalHasKey]
      | missing => simp [profileHandler, hres, mkMsg, bodyHasKey, jvalHasKey]
      | found doc => simp [profileHandler, hres, bodyHasKey, jvalHasKey]

/-- C1 counterexample: under token mode, a request to GET /api/profile
carrying a token that fails verification is answered with status 500, not
401 — the thrown verification error lands in the generic catch block. -/
theorem profile_invalid_token_not_401 :
    (profileHandler cfgToken dbA 0 reqBadToken).status = 500
      ∧ ¬ (profileHandler cfgToken dbA 0 reqBadToken).status = 401 := by
  decide

/-- C1 (amended): in token mode a token that fails verification or has
expired yields 401 (message Invalid or expired token) on GET /api/auth/me,
but on GET /api/profile the same failure is caught by that endpoint's
generic catch handler and yields 500 with an error body. -/
theorem invalid_token_me_401_profile_500
    (cfg : Config) (db : Db) (now : Nat) (req : AuthedRequest)
    (t : Token) (e : Exn)
    (hmode : USE_JWT cfg = true)
    (ht : tokOr req.cookieToken req.authHeaderToken = some t)
    (hv : jwtVerify t (jwtSecretStr cfg) now = .error e) :
    meHandler cfg db now req = mkMsg 401 "Invalid or expired token"
      ∧ profileHandler cfg db now req = mkErr 500 "Failed to fetch profile" := by
  have hres : resolveUser cfg db now req = .error e := by
    unfold resolveUser
    simp [hmode, ht, hv]
  constructor
  · simp [meHandler, hres]
  · simp [profileHandler, hres]

theorem invalid_token_me_401_profile_500_witness :
    meHandler cfgToken dbA 5 { emptyAuthedRequest with
        cookieToken := some (jwtSign ⟨1, "a@x.com"⟩ "secret" 3) }
        = mkMsg 401 "Invalid or expired token"
      ∧ profileHandler cfgToken dbA 5 { emptyAuthedRequest with
          cookieToken := some (jwtSign ⟨1, "a@x.com"⟩ "secret" 3) }
          = mkErr 500 "Failed to fetch profile" :=
  invalid_token_me_401_profile_500 cfgToken dbA 5
    { emptyAuthedRequest with cookieToken := some (jwtSign ⟨1, "a@x.com"⟩ "secret" 3) }
    (jwtSign ⟨1, "a@x.com"⟩ "secret" 3) .jwtExpired
    (by decide) rfl (by simp [jwtVerify, jwtSign, jwtSecretStr, cfgToken])

/-- C5 counterexample: in cookie mode with a credential present, an
unexpected persistence failure at GET /api/auth/me is caught and converted
to status 401, not 500. -/
theorem me_db_failure_not_500 :
    (meHandler cfgCookie dbDown 0 (emailOnlyReq "a@x.com")).status = 401
      ∧ ¬ (meHandler cfgCookie dbDown 0 (emailOnlyReq "a@x.com")).status = 500 := by
  decide

/-- C5 (amended): every handler catches unexpected failures at its
boundary — none propagates — but the conversion differs per endpoint:
register and login answer 500 with a message body, GET /api/auth/me
answers 401 with a message body, and GET /api/profile answers 500 with an
error body. -/
theorem endpoint_failures_caught
    (cfg : Config) (db : Db) (now : Nat) (body : RegisterBody)
    (email password em : String)
    (hdown : db.ok = false)
    (he : strFalsy body.email = false)
    (hp : strFalsy body.password = false)
    (hcookie : USE_JWT cfg = false)
    (hne : em ≠ "") :
    registerHandler cfg db now body = (mkMsg 500 "Server error", db)
      ∧ loginHandler cfg db now email password = mkMsg 500 "Server error"
      ∧ meHandler cfg db now (emailOnlyReq em) = mkMsg 401 "Invalid or expired token"
      ∧ profileHandler cfg db now (emailOnlyReq em)
          = mkErr 500 "Failed to fetch profile" := by
  have hres : resolveUser cfg db now (emailOnlyReq em) = .error .dbError := by
    unfold resolveUser
    simp [hcookie, emailOnlyReq, strOr, strVal, hne, findOneByEmail, hdown]
  refine ⟨?_, ?_, ?_, ?_⟩
  · simp [registerHandler, registerTry, findOneByEmail, hdown, he, hp]
  · simp [loginHandler, loginTry, findOneByEmail, hdown]
  · simp [meHandler, hres]
  · simp [profileHandler, hres]

theorem endpoint_failures_caught_witness :
    registerHandler cfgCookie dbDown 0 regBodyA = (mkMsg 500 "Server error", dbDown)
      ∧ loginHandler cfgCookie dbDown 0 "a@x.com" "p1" = mkMsg 500 "Server error"
      ∧ meHandler cfgCookie dbDown 0 (emailOnlyReq "a@x.com")
          = mkMsg 401 "Invalid or expired token"
      ∧ profileHandler cfgCookie dbDown 0 (emailOnlyReq "a@x.com")
          = mkErr 500 "Failed to fetch profile" :=
  endpoint_failures_caught cfgCookie dbDown 0 regBodyA "a@x.com" "p1" "a@x.com"
    (by decide) (by decide) (by decide) (by decide) (by decide)

/-- The names of the session cookies a response sets. -/
def sessionCookieNames (r : Response) : List String :=
  r.cookies.map (fun c => c.name)

/-- A successful login issues exactly the cookie selected by the fixed
mode flag. -/
theorem login_200_cookie (cfg : Config) (db : Db) (now : Nat)
    (email password : String)
    (h200 : (loginHandler cfg db now email password).status = 200) :
    sessionCookieNames (loginHandler cfg db now email password)
      = if USE_JWT cfg then ["token"] else ["user_email"] := by
  cases hok : db.ok with
  | false => simp [loginHandler, loginTry, findOneByEmail, hok, mkMsg] at h200
  | true =>
    cases hf : findUserByEmail db.users email with
    | none => simp [loginHandler, loginTry, findOneByEmail, hok, hf, mkMsg] at h200
    | some u =>
      cases hc : bcryptCompare password u.passwordHash with
      | false =>
        simp [loginHandler, loginTry, findOneByEmail, hok, hf, hc, mkMsg] at h200
      | true =>
        cases hm : USE_JWT cfg <;>
          simp [loginHandler, loginTry, findOneByEmail, hok, hf, hc,
            sessionResponse, sessionCookieNames, hm]

/-- A successful registration issues exactly the cookie selected by the
fixed mode flag. -/
theorem register_200_cookie (cfg : Config) (db : Db) (now : Nat)
    (body : RegisterBody)
    (h200 : (registerHandler cfg db now body).1.status = 200) :
    sessionCookieNames (registerHandler cfg db now body).1
      = if USE_JWT cfg then ["token"] else ["user_email"] := by
  cases hv : (strFalsy body.email || strFalsy body.password) with
  | true => simp [registerHandler, registerTry, hv, mkMsg] at h200
  | false =>
    cases hok : db.ok with
    | false =>
      simp [registerHandler, registerTry, hv, findOneByEmail, hok, mkMsg] at h200
    | true =>
      cases hf : findUserByEmail db.users (body.email.getD "") with
      | some u =>
        simp [registerHandler, registerTry, hv, findOneByEmail, hok, hf, mkMsg] at h200
      | none =>
        cases hm : USE_JWT cfg <;>
          simp [registerHandler, registerTry, hv, findOneByEmail, hok, hf, saveUser,
            sessionResponse, sessionCookieNames, hm]

/-- C6: the operating mode is a pure function of the configured signing
secret (token mode iff a nonempty secret is configured), never of the
request: session issuance by login and register sets the token cookie iff
the flag is set, and session validation by GET /api/auth/me and
GET /api/profile ignores the other mode's credential — under token mode a
request carrying only the plain email cookie is Not authenticated at both
endpoints, and under cookie mode a request carrying only a token is Not
authenticated at both endpoints. -/
theorem mode_fixed_by_secret
    (cfg : Config) (db : Db) (now : Nat) (body : RegisterBody)
    (email password em : String) (t : Token) :
    (USE_JWT cfg = true ↔ ∃ s, cfg.jwtSecret = some s ∧ s ≠ "")
      ∧ ((loginHandler cfg db now email password).status = 200 →
          sessionCookieNames (loginHandler cfg db now email password)
            = if USE_JWT cfg then ["token"] else ["user_email"])
      ∧ ((registerHandler cfg db now body).1.status = 200 →
          sessionCookieNames (registerHandler cfg db now body).1
            = if USE_JWT cfg then ["token"] else ["user_email"])
      ∧ (USE_JWT cfg = true →
          meHandler cfg db now (emailOnlyReq em) = mkMsg 401 "Not authenticated")
      ∧ (USE_JWT cfg = true →
          profileHandler cfg db now (emailOnlyReq em) = mkMsg 401 "Not authenticated")
      ∧ (USE_JWT cfg = false →
          meHandler cfg db now (tokenOnlyReq t) = mkMsg 401 "Not authenticated")
      ∧ (USE_JWT cfg = false →
          profileHandler cfg db now (tokenOnlyReq t)
            = mkMsg 401 "Not authenticated") := by
  have hresT : USE_JWT cfg = true →
      resolveUser cfg db now (emailOnlyReq em) = .ok .noCredential := by
    intro hmode
    unfold resolveUser
    simp [hmode, emailOnlyReq, tokOr]
  have hresC : USE_JWT cfg = false →
      resolveUser cfg db now (tokenOnlyReq t) = .ok .noCredential := by
    intro hmode
    unfold resolveUser
    simp [hmode, tokenOnlyReq, strOr, strVal]
  refine ⟨?_, login_200_cookie cfg db now email password,
    register_200_cookie cfg db now body, ?_, ?_, ?_, ?_⟩
  · cases hs : cfg.jwtSecret with
    | none => simp [USE_JWT, envTruthy, hs]
    | some s => simp [USE_JWT, envTruthy, hs]
  · intro hmode
    simp [meHandler, hresT hmode]
  · intro hmode
    simp [profileHandler, hresT hmode]
  · intro hmode
    simp [meHandler, hresC hmode]
  · intro hmode
    simp [profileHandler, hresC hmode]

theorem mode_fixed_by_secret_witness :
    sessionCookieNames (loginHandler cfgToken dbA 0 "a@x.com" "p1")
        = (if USE_JWT cfgToken then ["token"] else ["user_email"])
      ∧ sessionCookieNames (registerHandler cfgCookie dbA 0
          ⟨some "Dr C", none, some "c@x.com", some "p3", none, none⟩).1
          = (if USE_JWT cfgCookie then ["token"] else ["user_email"])
      ∧ meHandler cfgToken dbA 0 (emailOnlyReq "a@x.com")
          = mkMsg 401 "Not authenticated"
      ∧ profileHandler cfgToken dbA 0 (emailOnlyReq "a@x.com")
          = mkMsg 401 "Not authenticated"
      ∧ meHandler cfgCookie dbA 0 (tokenOnlyReq (.malformed "g"))
          = mkMsg 401 "Not authenticated"
      ∧ profileHandler cfgCookie dbA 0 (tokenOnlyReq (.malformed "g"))
          = mkMsg 401 "Not authenticated" :=
  ⟨(mode_fixed_by_secret cfgToken dbA 0 regBodyA "a@x.com" "p1" "a@x.com"
      (.malformed "g")).2.1 (by decide),
   (mode_fixed_by_secret cfgCookie dbA 0
      ⟨some "Dr C", none, some "c@x.com", some "p3", none, none⟩
      "a@x.com" "p1" "a@x.com" (.malformed "g")).2.2.1 (by decide),
   (mode_fixed_by_secret cfgToken dbA 0 regBodyA "a@x.com" "p1" "a@x.com"
      (.malformed "g")).2.2.2.1 (by decide),
   (mode_fixed_by_secret cfgToken dbA 0 regBodyA "a@x.com" "p1" "a@x.com"
      (.malformed "g")).2.2.2.2.1 (by decide),
   (mode_fixed_by_secret cfgCookie dbA 0 regBodyA "a@x.com" "p1" "a@x.com"
      (.malformed "g")).2.2.2.2.2.1 (by decide),
   (mode_fixed_by_secret cfgCookie dbA 0 regBodyA "a@x.com" "p1" "a@x.com"
      (.malformed "g")).2.2.2.2.2.2 (by decide)⟩

/-- With no credential attached, GET /api/auth/me answers 401 Not
authenticated in either mode, whatever the database state. -/
theorem me_no_credential_401 (cfg : Config) (db : Db) (now : Nat) :
    meHandler cfg db now emptyAuthedRequest = mkMsg 401 "Not authenticated" := by
  have hres : resolveUser cfg db now emptyAuthedRequest = .ok .noCredential := by
    unfold resolveUser
    split <;> rfl
  simp [meHandler, hres]

/-- C7: starting from the initial Unknown state with no prior session, the
CheckStatus round trip against the server settles in the Unauthenticated
state — user absent, not authenticated, loading cleared — and the loading
flag is cleared whenever CheckStatus settles, transport failure included. -/
theorem check_status_initial_unauthenticated (cfg : Config) (db : Db) (now : Nat) :
    checkAuthStatus initialClientState
        (outcomeOfResponse (meHandler cfg db now emptyAuthedRequest))
      = { user := none, loading := false, isAuthenticated := false }
    ∧ ∀ (s : ClientState) (o : FetchOutcome), (checkAuthStatus s o).loading = false := by
  constructor
  · rw [me_no_credential_401 cfg db now]
    decide
  · intro s o
    rfl

/-- C8: the client logout, whatever the outcome of the server call, always
clears the user, drops authentication, navigates to the login view, and
emits the logged-out notification. -/
theorem logout_always_clears_state (s : ClientState) (o : LogoutOutcome) :
    (logoutClient s o).state.user = none
      ∧ (logoutClient s o).state.isAuthenticated = false
      ∧ (logoutClient s o).navigatedTo = some "/login"
      ∧ (logoutClient s o).toasts
          = [("Logged out", "You have been successfully logged out")] :=
  ⟨rfl, rfl, rfl, rfl⟩

/-- C9: when CheckStatus settles with a non-ok status other than 401 and
403, the user and isAuthenticated fields keep their prior values; only the
loading flag is cleared. -/
theorem check_status_other_error_frame
    (s : ClientState) (status : Nat) (user? : Option UserJson)
    (hok : respOk status = false) (h401 : status ≠ 401) (h403 : status ≠ 403) :
    checkAuthStatus s (.response status user?) = { s with loading := false } := by
  unfold checkAuthStatus
  simp [hok, h401, h403]

theorem check_status_other_error_frame_witness :
    checkAuthStatus ⟨some [("email", "a@x.com")], true, true⟩ (.response 500 none)
      = { user := some [("email", "a@x.com")], loading := false,
          isAuthenticated := true } :=
  check_status_other_error_frame ⟨some [("email", "a@x.com")], true, true⟩ 500 none
    (by decide) (by decide) (by decide)

/-- C10: useAuth throws exactly when the ambient context value is absent,
and returns the published store object unchanged inside a provider. -/
theorem useAuth_context_contract :
    useAuth none = .error "useAuth must be used within an AuthProvider"
      ∧ ∀ (v : AuthContextValue), useAuth (some v) = .ok v :=
  ⟨rfl, fun _ => rfl⟩

end CND
